import Mathlib

/-!
Shallow embedding of `webrender/src/internal_types.rs` and proofs of its
specified properties.

Modelling conventions:
* Rust `Vec<T>` becomes `List T`; `Vec::push` appends on the right.
* Rust machine integers (`u32`, `usize`) become `Nat`; `i32` becomes `Int`
  (no arithmetic is performed on them here, so no wraparound is involved).
* `f32` values are modelled by `F32`: finite values idealized as exact
  rationals, with NaN and the two infinities represented explicitly; the
  Rust saturating `as u8` cast is modelled by `F32.toU8`.
* A Rust `panic!` / `.unwrap()` failure is modelled as `Option.none` or as
  the `RunResult.fatal` constructor; code that "returns normally" is
  `some` / `RunResult.ret`.
* Thread-local state and the external `offscreen_gl_context` backend are
  modelled by explicit state passing; definitions whose behaviour is not
  given in `internal_types.rs` itself carry a doc comment starting with
  `Modelled from the spec:`.
-/

namespace Webrender

/-- An ID for a texture owned by the texture cache module
(`CacheTextureId(pub usize)`). -/
structure CacheTextureId where
  id : Nat
deriving DecidableEq

/-- The source for a texture (`enum SourceTexture`). -/
inductive SourceTexture where
  | Invalid
  | TextureCache (id : CacheTextureId)
  | WebGL (id : Nat)
  | External (id : Nat)
deriving DecidableEq

/-- Stand-in for `webrender_traits::ImageFormat` (defined outside
`internal_types.rs`); the update-list claims do not depend on its structure,
only on decidable equality. -/
structure ImageFormat where
  code : Nat
deriving DecidableEq

/-- Stand-in for `device::TextureFilter` (defined outside
`internal_types.rs`). -/
structure TextureFilter where
  code : Nat
deriving DecidableEq

/-- `enum RenderTargetMode`. -/
inductive RenderTargetMode where
  | None
  | SimpleRenderTarget
  | LayerRenderTarget (layers : Int)
deriving DecidableEq

/-- `enum TextureUpdateOp`: `Create`, `Update`, `Grow` with their payloads
(`Arc<Vec<u8>>` becomes `List Nat`). -/
inductive TextureUpdateOp where
  | Create (width height : Nat) (format : ImageFormat) (filter : TextureFilter)
      (mode : RenderTargetMode) (pixels : Option (List Nat))
  | Update (x y width height : Nat) (pixels : List Nat) (stride : Option Nat)
  | Grow (width height : Nat) (format : ImageFormat) (filter : TextureFilter)
      (mode : RenderTargetMode)
deriving DecidableEq

/-- `struct TextureUpdate { id, op }`. -/
structure TextureUpdate where
  id : CacheTextureId
  op : TextureUpdateOp
deriving DecidableEq

/-- `struct TextureUpdateList { updates: Vec<TextureUpdate> }`. -/
structure TextureUpdateList where
  updates : List TextureUpdate
deriving DecidableEq

/-- `TextureUpdateList::new()`. -/
def TextureUpdateList.new : TextureUpdateList :=
  { updates := [] }

/-- `TextureUpdateList::push(update)`: `self.updates.push(update)`, i.e.
append at the end of the vector. -/
def TextureUpdateList.push (l : TextureUpdateList) (update : TextureUpdate) :
    TextureUpdateList :=
  { updates := l.updates ++ [update] }

/-- Pushing a whole sequence of updates one by one, in order (the way a
producer builds a list through the interface). -/
def TextureUpdateList.pushAll (l : TextureUpdateList) (us : List TextureUpdate) :
    TextureUpdateList :=
  us.foldl TextureUpdateList.push l

/-- Whether an operation is a `Create`. -/
def opIsCreate : TextureUpdateOp → Bool
  | .Create .. => true
  | _ => false

/-- The ids created (in order) by the `Create` entries of a list of updates. -/
def createdIds : List TextureUpdate → List CacheTextureId
  | [] => []
  | u :: rest => if opIsCreate u.op then u.id :: createdIds rest else createdIds rest

/-- Checker for the ordering invariant: every `Update`/`Grow` entry must
reference an id already seen in an earlier `Create`.  `created` accumulates
the ids created so far. -/
def wellOrderedAux : List TextureUpdate → List CacheTextureId → Bool
  | [], _ => true
  | u :: rest, created =>
    if opIsCreate u.op then
      wellOrderedAux rest (u.id :: created)
    else if u.id ∈ created then
      wellOrderedAux rest created
    else
      false

/-- Checks a finished `TextureUpdateList` for the `Create`-before-`Update`/
`Grow` invariant. -/
def checkUpdateList (l : TextureUpdateList) : Bool :=
  wellOrderedAux l.updates []

/-! ### Float model and `PackedColor` -/

/-- Idealized `f32` value: NaN and the infinities are explicit, finite values
are exact rationals (rounding of finite results is not modelled). -/
inductive F32 where
  | nan
  | posInf
  | negInf
  | finite (q : ℚ)
deriving DecidableEq

/-- IEEE-style multiplication on the idealized values: NaN propagates,
infinity times zero is NaN, signs follow the usual rules and finite results
are exact. -/
def F32.mul (x y : F32) : F32 :=
  match x, y with
  | .nan, _ => .nan
  | _, .nan => .nan
  | .posInf, .posInf => .posInf
  | .posInf, .negInf => .negInf
  | .negInf, .posInf => .negInf
  | .negInf, .negInf => .posInf
  | .posInf, .finite q => if q = 0 then .nan else if 0 < q then .posInf else .negInf
  | .negInf, .finite q => if q = 0 then .nan else if 0 < q then .negInf else .posInf
  | .finite q, .posInf => if q = 0 then .nan else if 0 < q then .posInf else .negInf
  | .finite q, .negInf => if q = 0 then .nan else if 0 < q then .negInf else .posInf
  | .finite a, .finite b => .finite (a * b)

/-- IEEE-style addition on the idealized values: NaN propagates, opposite
infinities give NaN, finite results are exact. -/
def F32.add (x y : F32) : F32 :=
  match x, y with
  | .nan, _ => .nan
  | _, .nan => .nan
  | .posInf, .negInf => .nan
  | .negInf, .posInf => .nan
  | .posInf, _ => .posInf
  | .negInf, _ => .negInf
  | .finite _, .posInf => .posInf
  | .finite _, .negInf => .negInf
  | .finite a, .finite b => .finite (a + b)

/-- `f32::floor`: rounds a finite value down to an integer; NaN and the
infinities are fixed points. -/
def F32.floor : F32 → F32
  | .nan => .nan
  | .posInf => .posInf
  | .negInf => .negInf
  | .finite q => .finite ((Int.floor q : Int) : ℚ)

/-- The Rust `as u8` cast on an `f32`: NaN goes to `0`, the value is
truncated toward zero and saturated to `[0, 255]`. -/
def F32.toU8 : F32 → Nat
  | .nan => 0
  | .posInf => 255
  | .negInf => 0
  | .finite q => if q < 0 then 0 else min 255 (Int.toNat (Int.floor q))

/-- `const COLOR_FLOAT_TO_FIXED: f32 = 255.0`. -/
def COLOR_FLOAT_TO_FIXED : F32 := F32.finite 255

/-- `webrender_traits::ColorF`: four `f32` components. -/
structure ColorF where
  r : F32
  g : F32
  b : F32
  a : F32

/-- `struct PackedColor`: four `u8` channels, each modelled as a `Nat`. -/
structure PackedColor where
  r : Nat
  g : Nat
  b : Nat
  a : Nat
deriving DecidableEq

/-- One channel of `PackedColor::from_color`:
`(0.5 + c * COLOR_FLOAT_TO_FIXED).floor() as u8` (the expression the source
repeats for each of r, g, b, a). -/
def packChannel (c : F32) : Nat :=
  (((F32.finite (1/2)).add (c.mul COLOR_FLOAT_TO_FIXED)).floor).toU8

/-- `PackedColor::from_color`. -/
def PackedColor.from_color (color : ColorF) : PackedColor :=
  { r := packChannel color.r
    g := packChannel color.g
    b := packChannel color.b
    a := packChannel color.a }

/-! ### Samplers and batch textures -/

/-- `enum TextureSampler`. -/
inductive TextureSampler where
  | Color0
  | Color1
  | Color2
  | Mask
  | Cache
  | Data16
  | Data32
  | Data64
  | Data128
  | Layers
  | RenderTasks
  | Geometry
  | ResourceRects
deriving DecidableEq

/-- `TextureSampler::color(n)`; the `panic!("There are only 3 color
samplers.")` arm is modelled as `none`. -/
def TextureSampler.color (n : Nat) : Option TextureSampler :=
  match n with
  | 0 => some TextureSampler.Color0
  | 1 => some TextureSampler.Color1
  | 2 => some TextureSampler.Color2
  | _ => none

/-- `struct BatchTextures { colors: [SourceTexture; 3] }`. -/
structure BatchTextures where
  colors : Fin 3 → SourceTexture

/-- `BatchTextures::no_texture()`: `[SourceTexture::Invalid; 3]`. -/
def BatchTextures.no_texture : BatchTextures :=
  { colors := fun _ => SourceTexture.Invalid }

/-! ### GL context abstraction

`internal_types.rs` dispatches on the backend variant and delegates to the
external `offscreen_gl_context` crate.  The external backend is modelled by
`BackendContext` / `BackendContextHandle`, whose behaviour oracles (function
and result fields) range over every behaviour the external crate could
exhibit; where a claim needs the external crate's documented behaviour, the
definition is marked `Modelled from the spec:`. -/

/-- `euclid::Size2D<i32>`. -/
structure Size2D where
  width : Int
  height : Int
deriving DecidableEq

/-- Modelled from the spec: the context-creation capability request record
(depth/stencil/antialiasing/premultiplied-alpha flags); its contents are
opaque to `internal_types.rs`. -/
structure GLContextAttributes where
  depth : Bool
  stencil : Bool
  antialias : Bool
  premultipliedAlpha : Bool
deriving DecidableEq

/-- Opaque stand-in for a boxed `GLContextDispatcher` trait object. -/
inductive GLContextDispatcher where
  | mk
deriving DecidableEq

/-- `offscreen_gl_context::ColorAttachmentType` (only `Texture` is used). -/
inductive ColorAttachmentType where
  | Texture
deriving DecidableEq

/-- A live backend context of the external crate, with its observable
drawable state and behaviour oracles for the fallible backend operations.
The two concrete backends (`NativeGLContext`, `OSMesaContext`) expose the
same interface and are modelled by the same state type. -/
structure BackendContext where
  /-- Size of the backing drawable. -/
  drawableSize : Size2D
  /-- Oracle: which target sizes the backend's `resize` can satisfy. -/
  canResize : Size2D → Bool
  /-- Oracle: result of the backend's `make_current`. -/
  makeCurrentResult : Except String Unit
  /-- Oracle: result of the backend's `unbind`. -/
  unbindResult : Except String Unit

/-- A backend context handle of the external crate; `new_shared` is the
oracle for `GLContext::<T>::new_shared_with_dispatcher`, ranging over every
outcome the external crate could produce. -/
structure BackendContextHandle where
  new_shared : Size2D → GLContextAttributes → ColorAttachmentType →
    Option GLContextDispatcher → Except String BackendContext

/-- `enum GLContextHandleWrapper`. -/
inductive GLContextHandleWrapper where
  | Native (handle : BackendContextHandle)
  | OSMesa (handle : BackendContextHandle)

/-- `enum GLContextWrapper`. -/
inductive GLContextWrapper where
  | Native (ctx : BackendContext)
  | OSMesa (ctx : BackendContext)

/-- The backend a handle or wrapper belongs to. -/
inductive Backend where
  | native
  | osmesa
deriving DecidableEq

/-- Backend variant of a handle wrapper. -/
def GLContextHandleWrapper.backend : GLContextHandleWrapper → Backend
  | .Native _ => .native
  | .OSMesa _ => .osmesa

/-- Backend variant of a context wrapper. -/
def GLContextWrapper.backend : GLContextWrapper → Backend
  | .Native _ => .native
  | .OSMesa _ => .osmesa

/-- `GLContextHandleWrapper::new_context`: dispatch on the handle's variant,
call the backend's shared-context creation with
`ColorAttachmentType::Texture`, and wrap an `Ok` result in the same
variant (`ctx.map(GLContextWrapper::Native)` resp. `::OSMesa`). -/
def GLContextHandleWrapper.new_context (h : GLContextHandleWrapper)
    (size : Size2D) (attributes : GLContextAttributes)
    (dispatcher : Option GLContextDispatcher) :
    Except String GLContextWrapper :=
  match h with
  | .Native handle =>
    (handle.new_shared size attributes ColorAttachmentType.Texture dispatcher).map
      GLContextWrapper.Native
  | .OSMesa handle =>
    (handle.new_shared size attributes ColorAttachmentType.Texture dispatcher).map
      GLContextWrapper.OSMesa

/-- Modelled from the spec: the calling thread's current GL binding — no
context, or a context of exactly one backend (`NativeGLContext::current_handle`
and `OSMesaContext::current_handle` read this thread-local state). -/
inductive ThreadBinding where
  | unbound
  | native (h : BackendContextHandle)
  | osmesa (h : BackendContextHandle)

/-- Modelled from the spec: `NativeGLContext::current_handle()` returns the
current handle exactly when the thread's binding is a native context. -/
def nativeCurrentHandle : ThreadBinding → Option BackendContextHandle
  | .native h => some h
  | _ => none

/-- Modelled from the spec: `OSMesaContext::current_handle()` returns the
current handle exactly when the thread's binding is an OSMesa context. -/
def osmesaCurrentHandle : ThreadBinding → Option BackendContextHandle
  | .osmesa h => some h
  | _ => none

/-- `GLContextHandleWrapper::current_native_handle()`:
`NativeGLContext::current_handle().map(GLContextHandleWrapper::Native)`,
with the thread-local binding passed explicitly. -/
def GLContextHandleWrapper.current_native_handle (t : ThreadBinding) :
    Option GLContextHandleWrapper :=
  (nativeCurrentHandle t).map GLContextHandleWrapper.Native

/-- `GLContextHandleWrapper::current_osmesa_handle()`:
`OSMesaContext::current_handle().map(GLContextHandleWrapper::OSMesa)`,
with the thread-local binding passed explicitly. -/
def GLContextHandleWrapper.current_osmesa_handle (t : ThreadBinding) :
    Option GLContextHandleWrapper :=
  (osmesaCurrentHandle t).map GLContextHandleWrapper.OSMesa

/-- Result of running code that may `panic!`: either a normal return or a
fatal abort. -/
inductive RunResult (α : Type) where
  | fatal (msg : String)
  | ret (val : α)
deriving DecidableEq

/-- Rust `Result::unwrap()`: a normal return on `Ok`, a fatal abort (panic)
on `Err`. -/
def unwrapResult {α : Type} (r : Except String α) : RunResult α :=
  match r with
  | .ok v => .ret v
  | .error e => .fatal e

/-- The underlying backend `make_current` result a wrapper would observe. -/
def GLContextWrapper.underlyingMakeCurrent : GLContextWrapper → Except String Unit
  | .Native ctx => ctx.makeCurrentResult
  | .OSMesa ctx => ctx.makeCurrentResult

/-- The underlying backend `unbind` result a wrapper would observe. -/
def GLContextWrapper.underlyingUnbind : GLContextWrapper → Except String Unit
  | .Native ctx => ctx.unbindResult
  | .OSMesa ctx => ctx.unbindResult

/-- `GLContextWrapper::make_current`: dispatch on the variant and
`ctx.make_current().unwrap()`. -/
def GLContextWrapper.make_current (w : GLContextWrapper) : RunResult Unit :=
  match w with
  | .Native ctx => unwrapResult ctx.makeCurrentResult
  | .OSMesa ctx => unwrapResult ctx.makeCurrentResult

/-- `GLContextWrapper::unbind`: dispatch on the variant and
`ctx.unbind().unwrap()`. -/
def GLContextWrapper.unbind (w : GLContextWrapper) : RunResult Unit :=
  match w with
  | .Native ctx => unwrapResult ctx.unbindResult
  | .OSMesa ctx => unwrapResult ctx.unbindResult

/-- Modelled from the spec: the external backend's `resize` reallocates the
backing drawable to the requested size when it can satisfy the request, and
otherwise fails with a descriptive error leaving the previous drawable
intact.  Returns the Rust `Result` together with the post-state. -/
def BackendContext.resize (ctx : BackendContext) (size : Size2D) :
    Except String Unit × BackendContext :=
  if ctx.canResize size then
    (Except.ok (), { ctx with drawableSize := size })
  else
    (Except.error "resize failed", ctx)

/-- `GLContextWrapper::resize(size)`: dispatch on the variant and delegate to
the backend's `resize`, returning the Rust `Result` together with the
wrapper's post-state (`&mut self` is modelled by explicit state passing). -/
def GLContextWrapper.resize (w : GLContextWrapper) (size : Size2D) :
    Except String Unit × GLContextWrapper :=
  match w with
  | .Native ctx =>
    let p := ctx.resize size
    (p.1, .Native p.2)
  | .OSMesa ctx =>
    let p := ctx.resize size
    (p.1, .OSMesa p.2)

/-- Drawable size observable through a wrapper. -/
def GLContextWrapper.drawableSize : GLContextWrapper → Size2D
  | .Native ctx => ctx.drawableSize
  | .OSMesa ctx => ctx.drawableSize

/-! ### Concrete fixtures used to instantiate the theorems -/

/-- A concrete drawable size. -/
def sampleSize : Size2D := ⟨64, 64⟩

/-- A concrete capability request. -/
def sampleAttributes : GLContextAttributes := ⟨true, true, false, true⟩

/-- A backend context whose operations all succeed. -/
def sampleContext : BackendContext :=
  { drawableSize := ⟨32, 32⟩
    canResize := fun _ => true
    makeCurrentResult := Except.ok ()
    unbindResult := Except.ok () }

/-- A backend context whose fallible operations all fail. -/
def failContext : BackendContext :=
  { drawableSize := ⟨32, 32⟩
    canResize := fun _ => false
    makeCurrentResult := Except.error "make_current failed"
    unbindResult := Except.error "unbind failed" }

/-- A backend handle whose shared-context creation succeeds. -/
def okHandle : BackendContextHandle :=
  ⟨fun _ _ _ _ => Except.ok sampleContext⟩

/-! ### Theorems -/

/-- Claim C1: `TextureUpdateList::push` appends the update at the end of
`updates` with no reordering, deduplication or coalescing, so pushing any
sequence `u1..un` onto `TextureUpdateList::new()` yields exactly
`[u1, ..., un]` in that order. -/
theorem c1_push_appends_in_order :
    (∀ (l : TextureUpdateList) (u : TextureUpdate),
        (l.push u).updates = l.updates ++ [u]) ∧
    (∀ us : List TextureUpdate,
        (TextureUpdateList.new.pushAll us).updates = us) := by
  have key : ∀ (us : List TextureUpdate) (l : TextureUpdateList),
      (l.pushAll us).updates = l.updates ++ us := by
    intro us
    induction us with
    | nil => intro l; simp [TextureUpdateList.pushAll]
    | cons u rest ih =>
      intro l
      have hstep : l.pushAll (u :: rest) = (l.push u).pushAll rest := rfl
      rw [hstep, ih]
      simp [TextureUpdateList.push]
  refine ⟨fun l u => rfl, fun us => ?_⟩
  simpa [TextureUpdateList.new] using key us TextureUpdateList.new

/-- Claim C4: `TextureSampler::color(n)` returns `Color0`, `Color1`, `Color2`
for `n = 0, 1, 2`, panics for every `n ≥ 3`, and never returns a non-color
sampler variant. -/
theorem c4_color_sampler_mapping :
    TextureSampler.color 0 = some TextureSampler.Color0 ∧
    TextureSampler.color 1 = some TextureSampler.Color1 ∧
    TextureSampler.color 2 = some TextureSampler.Color2 ∧
    (∀ n : Nat, 3 ≤ n → TextureSampler.color n = none) ∧
    (∀ (n : Nat) (s : TextureSampler), TextureSampler.color n = some s →
        s = TextureSampler.Color0 ∨ s = TextureSampler.Color1 ∨
          s = TextureSampler.Color2) := by
  refine ⟨rfl, rfl, rfl, ?_, ?_⟩
  · intro n h
    rcases n with _ | n
    · omega
    rcases n with _ | n
    · omega
    rcases n with _ | n
    · omega
    rfl
  · intro n s h
    rcases n with _ | n
    · exact Or.inl (Option.some.inj h).symm
    rcases n with _ | n
    · exact Or.inr (Or.inl (Option.some.inj h).symm)
    rcases n with _ | n
    · exact Or.inr (Or.inr (Option.some.inj h).symm)
    exact Option.noConfusion h

/-- Witness for C4 at the concrete indices 7 and 2. -/
theorem c4_color_sampler_mapping_witness :
    3 ≤ 7 ∧ TextureSampler.color 7 = none ∧
    TextureSampler.color 2 = some TextureSampler.Color2 ∧
    (TextureSampler.Color2 = TextureSampler.Color0 ∨
      TextureSampler.Color2 = TextureSampler.Color1 ∨
      TextureSampler.Color2 = TextureSampler.Color2) :=
  ⟨by decide, c4_color_sampler_mapping.2.2.2.1 7 (by decide), by decide,
   c4_color_sampler_mapping.2.2.2.2 2 TextureSampler.Color2 (by decide)⟩

/-- Claim C6: `BatchTextures::no_texture()` returns exactly three slots, each
equal to `SourceTexture::Invalid`. -/
theorem c6_no_texture_all_invalid :
    BatchTextures.no_texture.colors 0 = SourceTexture.Invalid ∧
    BatchTextures.no_texture.colors 1 = SourceTexture.Invalid ∧
    BatchTextures.no_texture.colors 2 = SourceTexture.Invalid :=
  ⟨rfl, rfl, rfl⟩

/-- Claim C5: if `new_context` on a handle returns `Ok(wrapper)` then the
wrapper's backend variant equals the handle's backend variant; no
cross-backend wrapper is ever produced. -/
theorem c5_new_context_backend_matches :
    ∀ (h : GLContextHandleWrapper) (size : Size2D)
      (attributes : GLContextAttributes)
      (dispatcher : Option GLContextDispatcher) (w : GLContextWrapper),
      h.new_context size attributes dispatcher = Except.ok w →
      w.backend = h.backend := by
  intro h size attributes dispatcher w hok
  cases h with
  | Native handle =>
    cases hcall : handle.new_shared size attributes ColorAttachmentType.Texture
        dispatcher with
    | ok ctx =>
      simp [GLContextHandleWrapper.new_context, hcall, Except.map] at hok
      subst hok
      rfl
    | error e =>
      simp [GLContextHandleWrapper.new_context, hcall, Except.map] at hok
  | OSMesa handle =>
    cases hcall : handle.new_shared size attributes ColorAttachmentType.Texture
        dispatcher with
    | ok ctx =>
      simp [GLContextHandleWrapper.new_context, hcall, Except.map] at hok
      subst hok
      rfl
    | error e =>
      simp [GLContextHandleWrapper.new_context, hcall, Except.map] at hok

/-- Witness for C5 at a concrete native handle whose creation succeeds. -/
theorem c5_new_context_backend_matches_witness :
    (GLContextHandleWrapper.Native okHandle).new_context sampleSize
        sampleAttributes none =
      Except.ok (GLContextWrapper.Native sampleContext) ∧
    (GLContextWrapper.Native sampleContext).backend =
      (GLContextHandleWrapper.Native okHandle).backend :=
  ⟨rfl,
   c5_new_context_backend_matches (GLContextHandleWrapper.Native okHandle)
     sampleSize sampleAttributes none (GLContextWrapper.Native sampleContext)
     rfl⟩

/-- Claim C7: `make_current` and `unbind` return normally exactly when the
underlying backend operation succeeds, and abort fatally (panic via
`unwrap`) whenever it fails; they never return normally after a failure. -/
theorem c7_make_current_unbind_fatal_on_failure :
    ∀ w : GLContextWrapper,
      (w.underlyingMakeCurrent = Except.ok () →
          w.make_current = RunResult.ret ()) ∧
      (∀ e, w.underlyingMakeCurrent = Except.error e →
          w.make_current = RunResult.fatal e) ∧
      (w.underlyingUnbind = Except.ok () → w.unbind = RunResult.ret ()) ∧
      (∀ e, w.underlyingUnbind = Except.error e →
          w.unbind = RunResult.fatal e) := by
  intro w
  cases w with
  | Native ctx =>
    refine ⟨fun h => ?_, fun e h => ?_, fun h => ?_, fun e h => ?_⟩ <;>
      simp_all [GLContextWrapper.make_current, GLContextWrapper.unbind,
        GLContextWrapper.underlyingMakeCurrent,
        GLContextWrapper.underlyingUnbind, unwrapResult]
  | OSMesa ctx =>
    refine ⟨fun h => ?_, fun e h => ?_, fun h => ?_, fun e h => ?_⟩ <;>
      simp_all [GLContextWrapper.make_current, GLContextWrapper.unbind,
        GLContextWrapper.underlyingMakeCurrent,
        GLContextWrapper.underlyingUnbind, unwrapResult]

/-- Witness for C7 at a succeeding and a failing concrete context. -/
theorem c7_make_current_unbind_fatal_on_failure_witness :
    (GLContextWrapper.Native sampleContext).underlyingMakeCurrent =
        Except.ok () ∧
    (GLContextWrapper.Native sampleContext).make_current = RunResult.ret () ∧
    (GLContextWrapper.OSMesa failContext).underlyingUnbind =
        Except.error "unbind failed" ∧
    (GLContextWrapper.OSMesa failContext).unbind =
        RunResult.fatal "unbind failed" :=
  ⟨rfl,
   (c7_make_current_unbind_fatal_on_failure
     (GLContextWrapper.Native sampleContext)).1 rfl,
   rfl,
   (c7_make_current_unbind_fatal_on_failure
     (GLContextWrapper.OSMesa failContext)).2.2.2 "unbind failed" rfl⟩

/-- Claim C8: if `resize` returns an error the wrapper's drawable state is
unchanged (no partial mutation), and if it returns `Ok(())` the backing
drawable now has the requested size. -/
theorem c8_resize_error_leaves_state_intact :
    ∀ (w : GLContextWrapper) (size : Size2D),
      (∀ e, (w.resize size).1 = Except.error e → (w.resize size).2 = w) ∧
      ((w.resize size).1 = Except.ok () →
          (w.resize size).2.drawableSize = size) := by
  intro w size
  cases w with
  | Native ctx =>
    by_cases hcr : ctx.canResize size = true <;>
      refine ⟨fun e he => ?_, fun hok => ?_⟩ <;>
        simp_all [GLContextWrapper.resize, BackendContext.resize,
          GLContextWrapper.drawableSize]
  | OSMesa ctx =>
    by_cases hcr : ctx.canResize size = true <;>
      refine ⟨fun e he => ?_, fun hok => ?_⟩ <;>
        simp_all [GLContextWrapper.resize, BackendContext.resize,
          GLContextWrapper.drawableSize]

/-- Witness for C8 at a context that refuses to resize and one that
accepts. -/
theorem c8_resize_error_leaves_state_intact_witness :
    ((GLContextWrapper.Native failContext).resize sampleSize).1 =
        Except.error "resize failed" ∧
    ((GLContextWrapper.Native failContext).resize sampleSize).2 =
        GLContextWrapper.Native failContext ∧
    ((GLContextWrapper.OSMesa sampleContext).resize sampleSize).1 =
        Except.ok () ∧
    ((GLContextWrapper.OSMesa sampleContext).resize sampleSize).2.drawableSize =
        sampleSize :=
  ⟨rfl,
   (c8_resize_error_leaves_state_intact (GLContextWrapper.Native failContext)
     sampleSize).1 "resize failed" rfl,
   rfl,
   (c8_resize_error_leaves_state_intact (GLContextWrapper.OSMesa sampleContext)
     sampleSize).2 rfl⟩

/-- Claim C9: `current_native_handle` returns `none` when no native context
is current and otherwise a `Native`-variant wrapper of the current handle;
symmetrically for `current_osmesa_handle`; for a given thread-local binding
at most one of the two succeeds. -/
theorem c9_current_handle_capture :
    ∀ t : ThreadBinding,
      ((∀ h, t ≠ ThreadBinding.native h) →
          GLContextHandleWrapper.current_native_handle t = none) ∧
      (∀ h, t = ThreadBinding.native h →
          GLContextHandleWrapper.current_native_handle t =
            some (GLContextHandleWrapper.Native h)) ∧
      ((∀ h, t ≠ ThreadBinding.osmesa h) →
          GLContextHandleWrapper.current_osmesa_handle t = none) ∧
      (∀ h, t = ThreadBinding.osmesa h →
          GLContextHandleWrapper.current_osmesa_handle t =
            some (GLContextHandleWrapper.OSMesa h)) ∧
      ¬((GLContextHandleWrapper.current_native_handle t).isSome = true ∧
        (GLContextHandleWrapper.current_osmesa_handle t).isSome = true) := by
  intro t
  cases t with
  | unbound =>
    refine ⟨fun _ => rfl, ?_, fun _ => rfl, ?_, ?_⟩
    · intro h he; exact ThreadBinding.noConfusion he
    · intro h he; exact ThreadBinding.noConfusion he
    · simp [GLContextHandleWrapper.current_native_handle, nativeCurrentHandle]
  | native h0 =>
    refine ⟨fun H => absurd rfl (H h0), ?_, fun _ => rfl, ?_, ?_⟩
    · intro h he
      injection he with hh
      subst hh
      rfl
    · intro h he; exact ThreadBinding.noConfusion he
    · simp [GLContextHandleWrapper.current_osmesa_handle, osmesaCurrentHandle]
  | osmesa h0 =>
    refine ⟨fun _ => rfl, ?_, fun H => absurd rfl (H h0), ?_, ?_⟩
    · intro h he; exact ThreadBinding.noConfusion he
    · intro h he
      injection he with hh
      subst hh
      rfl
    · simp [GLContextHandleWrapper.current_native_handle, nativeCurrentHandle]

/-- Witness for C9 at the unbound binding and at a concrete native
binding. -/
theorem c9_current_handle_capture_witness :
    GLContextHandleWrapper.current_native_handle ThreadBinding.unbound =
        none ∧
    GLContextHandleWrapper.current_native_handle
        (ThreadBinding.native okHandle) =
      some (GLContextHandleWrapper.Native okHandle) :=
  ⟨(c9_current_handle_capture ThreadBinding.unbound).1
     (fun _ he => ThreadBinding.noConfusion he),
   (c9_current_handle_capture (ThreadBinding.native okHandle)).2.1 okHandle
     rfl⟩

/-- Claim C3: for components in `[0, 1]`, `PackedColor::from_color` produces
per channel the 8-bit value `⌊0.5 + c * 255⌋`; in particular `0 ↦ 0`,
`1 ↦ 255`, `0.5 ↦ 128`; the quantization is a pure function of the input
(deterministic). -/
theorem c3_from_color_quantization :
    (∀ q : ℚ, 0 ≤ q → q ≤ 1 →
        packChannel (F32.finite q) = Int.toNat ⌊1/2 + q * 255⌋) ∧
    (∀ c : ColorF, PackedColor.from_color c =
        { r := packChannel c.r, g := packChannel c.g,
          b := packChannel c.b, a := packChannel c.a }) ∧
    packChannel (F32.finite 0) = 0 ∧
    packChannel (F32.finite 1) = 255 ∧
    packChannel (F32.finite (1/2)) = 128 := by
  have hmain : ∀ q : ℚ, 0 ≤ q → q ≤ 1 →
      packChannel (F32.finite q) = Int.toNat ⌊1/2 + q * 255⌋ := by
    intro q h0 h1
    have hred : packChannel (F32.finite q) =
        F32.toU8 (F32.finite ((⌊1/2 + q * 255⌋ : ℤ) : ℚ)) := rfl
    rw [hred]
    have hnn : (0:ℚ) ≤ 1/2 + q * 255 := by nlinarith
    have hfl0 : 0 ≤ ⌊(1:ℚ)/2 + q * 255⌋ := Int.floor_nonneg.mpr hnn
    have hlt : (1:ℚ)/2 + q * 255 < 256 := by nlinarith
    have hfl255 : ⌊(1:ℚ)/2 + q * 255⌋ ≤ 255 := by
      have h256 : ⌊(1:ℚ)/2 + q * 255⌋ < 256 :=
        Int.floor_lt.mpr (by exact_mod_cast hlt)
      omega
    have hnotneg : ¬(((⌊(1:ℚ)/2 + q * 255⌋ : ℤ) : ℚ) < 0) := by
      rw [not_lt]
      exact_mod_cast hfl0
    simp only [F32.toU8, if_neg hnotneg, Int.floor_intCast]
    have htn : Int.toNat ⌊(1:ℚ)/2 + q * 255⌋ ≤ 255 := by omega
    exact min_eq_right htn
  refine ⟨hmain, fun c => rfl, ?_, ?_, ?_⟩
  · rw [hmain 0 le_rfl (by norm_num)]
    have hfl : ⌊(1:ℚ)/2 + 0 * 255⌋ = 0 := by
      rw [Int.floor_eq_iff]
      norm_num
    rw [hfl]
    rfl
  · rw [hmain 1 (by norm_num) le_rfl]
    have hfl : ⌊(1:ℚ)/2 + 1 * 255⌋ = 255 := by
      rw [Int.floor_eq_iff]
      norm_num
    rw [hfl]
    rfl
  · rw [hmain (1/2) (by norm_num) (by norm_num)]
    have hfl : ⌊(1:ℚ)/2 + 1/2 * 255⌋ = 128 := by
      rw [Int.floor_eq_iff]
      norm_num
    rw [hfl]
    rfl

/-- Witness for C3 at the concrete component `1/2`. -/
theorem c3_from_color_quantization_witness :
    (0:ℚ) ≤ 1/2 ∧ (1/2:ℚ) ≤ 1 ∧
    packChannel (F32.finite (1/2)) = Int.toNat ⌊1/2 + (1/2 : ℚ) * 255⌋ :=
  ⟨by norm_num, by norm_num,
   c3_from_color_quantization.1 (1/2) (by norm_num) (by norm_num)⟩

/-- Claim C10: `PackedColor::from_color` is total on every float input: a
channel whose `0.5 + c * 255` is NaN or negative yields `0`, one at or above
`255` yields `255` (the `as u8` cast saturates); the result never wraps
modulo 256 and no input panics. -/
theorem c10_from_color_total_saturating :
    packChannel F32.nan = 0 ∧
    packChannel F32.posInf = 255 ∧
    packChannel F32.negInf = 0 ∧
    (∀ q : ℚ, 1/2 + q * 255 < 0 → packChannel (F32.finite q) = 0) ∧
    (∀ q : ℚ, 255 ≤ 1/2 + q * 255 → packChannel (F32.finite q) = 255) ∧
    (∀ c : F32, packChannel c ≤ 255) := by
  refine ⟨by decide, by decide, by decide, ?_, ?_, ?_⟩
  · intro q hneg
    have hred : packChannel (F32.finite q) =
        F32.toU8 (F32.finite ((⌊1/2 + q * 255⌋ : ℤ) : ℚ)) := rfl
    rw [hred]
    have hcast : ((⌊(1:ℚ)/2 + q * 255⌋ : ℤ) : ℚ) < 0 :=
      lt_of_le_of_lt (Int.floor_le _) hneg
    simp only [F32.toU8, if_pos hcast]
  · intro q hge
    have hred : packChannel (F32.finite q) =
        F32.toU8 (F32.finite ((⌊1/2 + q * 255⌋ : ℤ) : ℚ)) := rfl
    rw [hred]
    have hfl : (255:ℤ) ≤ ⌊(1:ℚ)/2 + q * 255⌋ :=
      Int.le_floor.mpr (by exact_mod_cast hge)
    have hnotneg : ¬(((⌊(1:ℚ)/2 + q * 255⌋ : ℤ) : ℚ) < 0) := by
      rw [not_lt]
      exact_mod_cast le_trans (by norm_num) hfl
    simp only [F32.toU8, if_neg hnotneg, Int.floor_intCast]
    have htn : 255 ≤ Int.toNat ⌊(1:ℚ)/2 + q * 255⌋ := by omega
    exact min_eq_left htn
  · intro c
    cases c with
    | nan => decide
    | posInf => decide
    | negInf => decide
    | finite q =>
      have hred : packChannel (F32.finite q) =
          F32.toU8 (F32.finite ((⌊1/2 + q * 255⌋ : ℤ) : ℚ)) := rfl
      rw [hred]
      by_cases hneg : ((⌊(1:ℚ)/2 + q * 255⌋ : ℤ) : ℚ) < 0
      · simp only [F32.toU8, if_pos hneg]
        exact Nat.zero_le 255
      · simp only [F32.toU8, if_neg hneg]
        exact min_le_left _ _

/-- Witness for C10 at the concrete components `-1` (negative) and `2`
(above range: a wrapping cast would give `510 % 256 = 254`, the saturating
cast gives `255`). -/
theorem c10_from_color_total_saturating_witness :
    (1/2 + (-1 : ℚ) * 255 < 0) ∧ packChannel (F32.finite (-1)) = 0 ∧
    ((255:ℚ) ≤ 1/2 + (2 : ℚ) * 255) ∧ packChannel (F32.finite 2) = 255 :=
  ⟨by norm_num, c10_from_color_total_saturating.2.2.2.1 (-1) (by norm_num),
   by norm_num, c10_from_color_total_saturating.2.2.2.2.1 2 (by norm_num)⟩

/-- A texture update that mutates an id no `Create` has introduced. -/
def orphanUpdate : TextureUpdate :=
  { id := ⟨0⟩
    op := TextureUpdateOp.Update 0 0 1 1 [] none }

/-- A `Create` entry for id 1. -/
def sampleCreate : TextureUpdate :=
  { id := ⟨1⟩
    op := TextureUpdateOp.Create 64 64 ⟨0⟩ ⟨0⟩ RenderTargetMode.None none }

/-- An `Update` entry for the previously created id 1. -/
def sampleUpdate : TextureUpdate :=
  { id := ⟨1⟩
    op := TextureUpdateOp.Update 0 0 64 64 [] none }

/-- Counterexample to claim C2: the list `[orphanUpdate]` is built through
`TextureUpdateList::new`/`push` alone, yet its single `Update` references an
id never seen in a `Create` — `push` accepts it without any check, so the
list-building interface does not establish the invariant. -/
theorem c2_interface_checks_counterexample :
    (TextureUpdateList.new.push orphanUpdate).updates = [orphanUpdate] ∧
    checkUpdateList (TextureUpdateList.new.push orphanUpdate) = false ∧
    ¬(∀ pre u post,
        (TextureUpdateList.new.push orphanUpdate).updates = pre ++ u :: post →
        opIsCreate u.op = false → u.id ∈ createdIds pre) := by
  refine ⟨rfl, rfl, ?_⟩
  intro H
  have hin := H [] orphanUpdate [] rfl rfl
  simp [createdIds] at hin

/-- Claim C2 (amended): `push` performs no validation, so the list-building
interface itself does not establish the invariant; instead the invariant is
decidable on the finished list, and the checker `checkUpdateList` detects a
violation before the list reaches the GPU-consuming layer: it returns `true`
exactly when every `Update`/`Grow` entry references an id previously seen in
a `Create` of the same list. -/
theorem c2_checker_detects_orphans :
    ∀ us : List TextureUpdate,
      checkUpdateList ⟨us⟩ = true ↔
      ∀ pre u post, us = pre ++ u :: post → opIsCreate u.op = false →
        u.id ∈ createdIds pre := by
  have key : ∀ (us : List TextureUpdate) (created : List CacheTextureId),
      wellOrderedAux us created = true ↔
      ∀ pre u post, us = pre ++ u :: post → opIsCreate u.op = false →
        u.id ∈ created ∨ u.id ∈ createdIds pre := by
    intro us
    induction us with
    | nil =>
      intro created
      constructor
      · intro _ pre u post hsplit _
        exact absurd hsplit (by cases pre <;> simp)
      · intro _
        rfl
    | cons v rest ih =>
      intro created
      cases hv : opIsCreate v.op with
      | true =>
        rw [show wellOrderedAux (v :: rest) created =
            wellOrderedAux rest (v.id :: created) from by
          simp [wellOrderedAux, hv]]
        rw [ih (v.id :: created)]
        constructor
        · intro H pre u post hsplit hu
          cases pre with
          | nil =>
            injection hsplit with h1 h2
            subst h1
            simp [hv] at hu
          | cons p pre =>
            injection hsplit with h1 h2
            subst h1
            have hrec := H pre u post h2 hu
            simp only [createdIds, hv, if_true, List.mem_cons] at hrec ⊢
            tauto
        · intro H pre u post hsplit hu
          have hrec := H (v :: pre) u post (by rw [hsplit, List.cons_append]) hu
          simp only [createdIds, hv, if_true, List.mem_cons] at hrec ⊢
          tauto
      | false =>
        by_cases hmem : v.id ∈ created
        · rw [show wellOrderedAux (v :: rest) created =
              wellOrderedAux rest created from by
            simp [wellOrderedAux, hv, hmem]]
          rw [ih created]
          constructor
          · intro H pre u post hsplit hu
            cases pre with
            | nil =>
              injection hsplit with h1 h2
              subst h1
              exact Or.inl hmem
            | cons p pre =>
              injection hsplit with h1 h2
              subst h1
              have hrec := H pre u post h2 hu
              simp only [createdIds, hv] at hrec ⊢
              simpa using hrec
          · intro H pre u post hsplit hu
            have hrec := H (v :: pre) u post (by rw [hsplit, List.cons_append]) hu
            simp only [createdIds, hv] at hrec
            simpa using hrec
        · rw [show wellOrderedAux (v :: rest) created = false from by
            simp [wellOrderedAux, hv, hmem]]
          constructor
          · intro h
            exact absurd h (by simp)
          · intro H
            exfalso
            have hin := H [] v rest rfl hv
            simp [createdIds] at hin
            exact hmem hin
  intro us
  rw [show checkUpdateList ⟨us⟩ = wellOrderedAux us [] from rfl, key us []]
  constructor
  · intro H pre u post hsplit hu
    rcases H pre u post hsplit hu with h | h
    · exact absurd h (List.not_mem_nil _)
    · exact h
  · intro H pre u post hsplit hu
    exact Or.inr (H pre u post hsplit hu)

/-- Witness for C2 (amended) at a concrete well-formed list: a `Create` for
id 1 followed by an `Update` of id 1. -/
theorem c2_checker_detects_orphans_witness :
    checkUpdateList ⟨[sampleCreate, sampleUpdate]⟩ = true ∧
    sampleUpdate.id ∈ createdIds [sampleCreate] :=
  ⟨rfl,
   (c2_checker_detects_orphans [sampleCreate, sampleUpdate]).mp rfl
     [sampleCreate] sampleUpdate [] rfl rfl⟩

end Webrender
